import Mathlib

/-!
Shallow embedding of `wechat_enterprise/wechat_enterprise.py` (repository
somenzz/wechat_enterprise).

The Python module is a synchronous HTTP client.  We embed it as explicit
state-passing functions:

* JSON values are modelled by `WE.JVal` (integers, strings, objects — the only
  shapes the module ever produces or consumes).
* The HTTP session is modelled by an oracle: a script of `WE.HttpResult`
  responses consumed in order, one per request issued; every issued request is
  recorded in a trace so that theorems can count and inspect network calls.
* `datetime.now()` is modelled by an integer clock `World.now` (seconds),
  constant within one operation; theorems that involve elapsed time run
  successive operations at different clock values.
* Python exceptions are modelled by `Except WE.PyError`; the `try/except`
  blocks of the source become matches on the `Except` value.
* The local filesystem (only read by `upload_file`) is a finite map from path
  to file contents.
-/

namespace WE

/-- JSON values as used by the module: numbers, strings and objects. -/
inductive JVal where
  | jint : Int → JVal
  | jstr : String → JVal
  | jobj : List (String × JVal) → JVal

/-- A JSON object (Python dict with string keys, insertion ordered). -/
abbrev JObj := List (String × JVal)

/-- Python `d[k]` / `d.get(k)` lookup on an object. -/
def jgetOpt (js : JObj) (k : String) : Option JVal :=
  match js.find? (fun p => p.1 == k) with
  | some p => some p.2
  | none => none

/-- Python `d.get(k, default)` lookup on an object. -/
def jget (js : JObj) (k : String) (d : JVal) : JVal :=
  match jgetOpt js k with
  | some v => v
  | none => d

mutual

/-- Python `repr` of a JSON value (used by `str` on dicts). -/
def JVal.pyRepr : JVal → String
  | JVal.jint n => toString n
  | JVal.jstr s => "\x27" ++ s ++ "\x27"
  | JVal.jobj l => "\x7b" ++ pyReprFields l ++ "\x7d"

/-- Python `repr` of the comma-separated fields of a dict. -/
def pyReprFields : List (String × JVal) → String
  | [] => ""
  | [(k, v)] => "\x27" ++ k ++ "\x27: " ++ JVal.pyRepr v
  | (k, v) :: p :: rest =>
    "\x27" ++ k ++ "\x27: " ++ JVal.pyRepr v ++ ", " ++ pyReprFields (p :: rest)

end

/-- Python `str()` of a JSON value (strings render without quotes). -/
def JVal.toPyStr : JVal → String
  | JVal.jstr s => s
  | v => JVal.pyRepr v

/-- Python truthiness of a JSON value (`if self._access_token:`). -/
def JVal.truthy : JVal → Bool
  | JVal.jint n => decide (n ≠ 0)
  | JVal.jstr s => decide (s ≠ "")
  | JVal.jobj l => !l.isEmpty

/-- Python `x != 0` for a JSON value `x` (non-integers are never equal to 0). -/
def pyNeZero : JVal → Bool
  | JVal.jint n => decide (n ≠ 0)
  | _ => true

/-- The errors the module can raise.  `wechat` is `WechatEnterpriseError
(message, errcode)`; the constructor stores both arguments unconverted, as the
Python class does.  The remaining constructors model the built-in / `requests`
exceptions that can cross the module's `try` blocks. -/
inductive PyError where
  | wechat : JVal → JVal → PyError
  | httpStatus : Nat → PyError
  | connectionError : String → PyError
  | keyError : String → PyError
  | valueError : String → PyError
  | fileNotFound : String → PyError
  | typeError : String → PyError

/-- Python `str()` of an exception, as interpolated into wrapper messages.
`wechat` renders exactly as `WechatEnterpriseError.__init__` formats it:
`[Errcode: {errcode}] {message}`.  For the `requests` exceptions the reason
and URL parts of the real rendering are not modelled. -/
def PyError.str : PyError → String
  | PyError.wechat m c => "[Errcode: " ++ JVal.toPyStr c ++ "] " ++ JVal.toPyStr m
  | PyError.httpStatus n =>
      if n < 500 then toString n ++ " Client Error" else toString n ++ " Server Error"
  | PyError.connectionError m => m
  | PyError.keyError k => "\x27" ++ k ++ "\x27"
  | PyError.valueError m => m
  | PyError.fileNotFound p => "[Errno 2] No such file or directory: \x27" ++ p ++ "\x27"
  | PyError.typeError m => m

/-- An HTTP response body: JSON, or raw text (on which `response.json()`
raises `JSONDecodeError`). -/
inductive Body where
  | json : JObj → Body
  | text : String → Body

/-- An HTTP response: status code and body. -/
structure HttpResponse where
  status : Nat
  body : Body

/-- What the remote stub does for one request: answer, or fail at the
transport level (`requests.ConnectionError`). -/
inductive HttpResult where
  | resp : HttpResponse → HttpResult
  | netErr : String → HttpResult

/-- The multipart file argument of `session.post(..., files=...)`:
field name, filename, file bytes, content type. -/
structure FilePart where
  field : String
  filename : String
  content : String
  mime : String

/-- A wire-level request as issued through the `requests.Session`. -/
inductive Request where
  | get : String → List (String × JVal) → Request
  | post : String → List (String × JVal) → Option JObj → Option FilePart → Request

/-- The world outside the client instance: the clock, the remote stub's
response script, the local filesystem, and the trace of issued requests. -/
structure World where
  now : Int
  responses : List HttpResult
  fs : List (String × String)
  trace : List Request

/-- Instance state of `WechatEnterprise`: the constructor arguments and the
in-memory token cache (`_access_token`, `_token_expires_at`). -/
structure Client where
  corpid : String
  appid : String
  corpsecret : String
  access_token : Option JVal
  token_expires_at : Option Int

/-- A full program state: client instance plus world. -/
structure St where
  client : Client
  world : World

/-- `WechatEnterprise.__init__(corpid, appid, corpsecret)`: empty cache. -/
def initClient (corpid appid corpsecret : String) : Client :=
  { corpid := corpid, appid := appid, corpsecret := corpsecret,
    access_token := none, token_expires_at := none }

def BASE_URL : String := "https://qyapi.weixin.qq.com/cgi-bin"
def TOKEN_URL : String := BASE_URL ++ "/gettoken"
def SEND_URL : String := BASE_URL ++ "/message/send"
def UPLOAD_URL : String := BASE_URL ++ "/media/upload"
def GET_USER_URL : String := BASE_URL ++ "/user/get"
def GET_USERID_URL : String := BASE_URL ++ "/user/getuserid"
def DEPT_SIMPLELIST_URL : String := BASE_URL ++ "/department/simplelist"
def USER_SIMPLELIST_URL : String := BASE_URL ++ "/user/simplelist"

/-- `TOKEN_EXPIRATION_BUFFER = 60` (seconds). -/
def TOKEN_EXPIRATION_BUFFER : Int := 60

/-- Reading a local file: `open(filepath, "rb")` against the modelled
filesystem; a missing path is `FileNotFoundError`. -/
def fsRead (fs : List (String × String)) (path : String) : Option String :=
  match fs.find? (fun p => p.1 == path) with
  | some p => some p.2
  | none => none

/-- One call through the `requests.Session`: the request is recorded in the
trace, then the stub's next scripted result is consumed.  An exhausted script
behaves like a transport failure. -/
def sessionReq (s : St) (req : Request) : Except PyError HttpResponse × St :=
  let w1 := { s.world with trace := s.world.trace ++ [req] }
  match w1.responses with
  | [] => (Except.error (PyError.connectionError "connection error"),
           { s with world := w1 })
  | hr :: rest =>
    let w2 := { w1 with responses := rest }
    match hr with
    | HttpResult.netErr m => (Except.error (PyError.connectionError m), { s with world := w2 })
    | HttpResult.resp r => (Except.ok r, { s with world := w2 })

/-- `WechatEnterprise._handle_api_response`: raise for HTTP 4xx/5xx, decode
JSON (non-JSON bodies raise `WechatEnterpriseError(..., -1)`), then raise
`WechatEnterpriseError(errmsg, errcode)` when the business `errcode` is
non-zero, else return the decoded object. -/
def handle_api_response (r : HttpResponse) : Except PyError JObj :=
  if 400 ≤ r.status ∧ r.status < 600 then
    Except.error (PyError.httpStatus r.status)
  else
    match r.body with
    | Body.text t =>
      Except.error (PyError.wechat (JVal.jstr ("API 响应非 JSON 格式: " ++ t)) (JVal.jint (-1)))
    | Body.json js =>
      let errcode := jget js "errcode" (JVal.jint 0)
      let errmsg := jget js "errmsg" (JVal.jstr "ok")
      if pyNeZero errcode then Except.error (PyError.wechat errmsg errcode)
      else Except.ok js

/-- `WechatEnterprise._fetch_access_token`: GET the token endpoint, handle the
response; any exception from those two steps is re-raised as
`WechatEnterpriseError("获取 token 失败…: {e}", -1)`.  On success the token is
read (`js["access_token"]`, a `KeyError` if absent), `expires_in` defaults to
7200, and the instance cache is updated to expire `expires_in - 60` seconds
from now.  A non-integer `expires_in` would make `timedelta` raise
`TypeError`. -/
def fetch_access_token (s : St) : Except PyError JVal × St :=
  let params : List (String × JVal) :=
    [("corpid", JVal.jstr s.client.corpid), ("corpsecret", JVal.jstr s.client.corpsecret)]
  let step : Except PyError JObj × St :=
    match sessionReq s (Request.get TOKEN_URL params) with
    | (Except.error e, s1) => (Except.error e, s1)
    | (Except.ok r, s1) =>
      match handle_api_response r with
      | Except.error e => (Except.error e, s1)
      | Except.ok js => (Except.ok js, s1)
  match step with
  | (Except.error e, s1) =>
    (Except.error (PyError.wechat
        (JVal.jstr ("获取 token 失败，请确保 corpid 和 corpsecret 正确: " ++ PyError.str e))
        (JVal.jint (-1))), s1)
  | (Except.ok js, s1) =>
    match jgetOpt js "access_token" with
    | none => (Except.error (PyError.keyError "access_token"), s1)
    | some tok =>
      match jget js "expires_in" (JVal.jint 7200) with
      | JVal.jint n =>
        let c := { s1.client with
                   access_token := some tok,
                   token_expires_at := some (s1.world.now + (n - TOKEN_EXPIRATION_BUFFER)) }
        (Except.ok tok, { s1 with client := c })
      | v =>
        (Except.error (PyError.typeError
            ("unsupported type for timedelta seconds component: " ++ JVal.toPyStr v)), s1)

/-- `WechatEnterprise.get_access_token`: return the cached token when it is
truthy, an expiry instant is recorded, and `now` is before that instant;
otherwise fetch a fresh one. -/
def get_access_token (s : St) : Except PyError JVal × St :=
  match s.client.access_token with
  | some tok =>
    match s.client.token_expires_at with
    | some e =>
      if tok.truthy && decide (s.world.now < e) then (Except.ok tok, s)
      else fetch_access_token s
    | none => fetch_access_token s
  | none => fetch_access_token s

/-- `WechatEnterprise._api_get`: obtain a token, then GET with
`access_token` injected ahead of the caller's params. -/
def api_get (s : St) (url : String) (params : List (String × JVal)) :
    Except PyError JObj × St :=
  match get_access_token s with
  | (Except.error e, s1) => (Except.error e, s1)
  | (Except.ok tok, s1) =>
    match sessionReq s1 (Request.get url (("access_token", tok) :: params)) with
    | (Except.error e, s2) => (Except.error e, s2)
    | (Except.ok r, s2) => (handle_api_response r, s2)

/-- `WechatEnterprise._api_post`: obtain a token, then POST with
`access_token` in the query params, plus optional JSON body and files. -/
def api_post (s : St) (url : String) (params : List (String × JVal))
    (json_data : Option JObj) (files : Option FilePart) :
    Except PyError JObj × St :=
  match get_access_token s with
  | (Except.error e, s1) => (Except.error e, s1)
  | (Except.ok tok, s1) =>
    match sessionReq s1 (Request.post url (("access_token", tok) :: params) json_data files) with
    | (Except.error e, s2) => (Except.error e, s2)
    | (Except.ok r, s2) => (handle_api_response r, s2)

/-- `WechatEnterprise.upload_file`: open the local file, POST it to the
upload endpoint, return `response_json["media_id"]`.  `FileNotFoundError`
becomes `WechatEnterpriseError("文件未找到: …", -1)`; every other exception in
the block becomes `WechatEnterpriseError("文件上传失败: {e}", -1)`. -/
def upload_file (s : St) (filepath filename file_type : String) :
    Except PyError JVal × St :=
  let body : Except PyError JVal × St :=
    match fsRead s.world.fs filepath with
    | none => (Except.error (PyError.fileNotFound filepath), s)
    | some content =>
      match api_post s UPLOAD_URL [("type", JVal.jstr file_type)] none
              (some ⟨"file", filename, content, "application/octet-stream"⟩) with
      | (Except.error e, s1) => (Except.error e, s1)
      | (Except.ok js, s1) =>
        match jgetOpt js "media_id" with
        | some m => (Except.ok m, s1)
        | none => (Except.error (PyError.keyError "media_id"), s1)
  match body with
  | (Except.ok m, s1) => (Except.ok m, s1)
  | (Except.error (PyError.fileNotFound _), s1) =>
    (Except.error (PyError.wechat (JVal.jstr ("文件未找到: " ++ filepath)) (JVal.jint (-1))), s1)
  | (Except.error e, s1) =>
    (Except.error (PyError.wechat (JVal.jstr ("文件上传失败: " ++ PyError.str e)) (JVal.jint (-1))), s1)

/-- `WechatEnterprise._send`: join the recipients with `"|"`, build the base
message dict, add the per-kind payload (raising `ValueError` on a missing
required field or unsupported kind), and POST it to the send endpoint. -/
def send (s : St) (msg_type : String) (users : List String)
    (content : Option String) (media_id : Option JVal) :
    Except PyError JObj × St :=
  let userid_str := String.intercalate "|" users
  let base : JObj :=
    [("touser", JVal.jstr userid_str),
     ("msgtype", JVal.jstr msg_type),
     ("agentid", JVal.jstr s.client.appid),
     ("safe", JVal.jint 0),
     ("enable_id_trans", JVal.jint 1),
     ("enable_duplicate_check", JVal.jint 0),
     ("duplicate_check_interval", JVal.jint 1800)]
  let payload : Except PyError JObj :=
    if msg_type == "text" then
      match content with
      | none => Except.error (PyError.valueError "文本消息 \x27content\x27 不能为空")
      | some c => Except.ok (base ++ [(msg_type, JVal.jobj [("content", JVal.jstr c)])])
    else if msg_type == "markdown" then
      match content with
      | none => Except.error (PyError.valueError "Markdown 消息 \x27content\x27 不能为空")
      | some c => Except.ok (base ++ [(msg_type, JVal.jobj [("content", JVal.jstr c)])])
    else if msg_type == "image" || msg_type == "file" ||
            msg_type == "voice" || msg_type == "video" then
      match media_id with
      | none => Except.error (PyError.valueError (msg_type ++ " 消息 \x27media_id\x27 不能为空"))
      | some m => Except.ok (base ++ [(msg_type, JVal.jobj [("media_id", m)])])
    else Except.error (PyError.valueError ("不支持的消息类型: " ++ msg_type))
  match payload with
  | Except.error e => (Except.error e, s)
  | Except.ok data => api_post s SEND_URL [] (some data) none

/-- `Path(p).name`: the final path component (trailing slashes do not
count, matching `pathlib`). -/
def pathName (p : String) : String :=
  let revNoTrail := p.data.reverse.dropWhile (fun c => c == '/')
  String.mk (revNoTrail.takeWhile (fun c => !(c == '/'))).reverse

/-- `WechatEnterprise.send_text`. -/
def send_text (s : St) (content : String) (users : List String) :
    Except PyError JObj × St :=
  send s "text" users (some content) none

/-- `WechatEnterprise.send_markdown`. -/
def send_markdown (s : St) (content : String) (users : List String) :
    Except PyError JObj × St :=
  send s "markdown" users (some content) none

/-- `WechatEnterprise.send_image`: upload, then send the returned media id. -/
def send_image (s : St) (image_path : String) (users : List String) :
    Except PyError JObj × St :=
  match upload_file s image_path (pathName image_path) "image" with
  | (Except.error e, s1) => (Except.error e, s1)
  | (Except.ok m, s1) => send s1 "image" users none (some m)

/-- `WechatEnterprise.send_file`: upload, then send the returned media id. -/
def send_file (s : St) (file_path : String) (users : List String) :
    Except PyError JObj × St :=
  match upload_file s file_path (pathName file_path) "file" with
  | (Except.error e, s1) => (Except.error e, s1)
  | (Except.ok m, s1) => send s1 "file" users none (some m)

/-- Whether a request is a token fetch (a GET to the token endpoint). -/
def isTokenRequest : Request → Bool
  | Request.get u _ => u == TOKEN_URL
  | _ => false

/-- Number of token fetches recorded in a trace. -/
def fetchCount (tr : List Request) : Nat := (tr.filter isTokenRequest).length

/-- The token request `_fetch_access_token` issues for a given identity. -/
def tokenRequest (corpid corpsecret : String) : Request :=
  Request.get TOKEN_URL [("corpid", JVal.jstr corpid), ("corpsecret", JVal.jstr corpsecret)]

/-- A successful token-endpoint response carrying `access_token` and
`expires_in`. -/
def tokenResp (t : JVal) (n : Int) : HttpResult :=
  HttpResult.resp ⟨200, Body.json
    [("errcode", JVal.jint 0), ("errmsg", JVal.jstr "ok"),
     ("access_token", t), ("expires_in", JVal.jint n)]⟩

/-- A successful token-endpoint response that omits `expires_in`. -/
def tokenRespNoExpire (t : JVal) : HttpResult :=
  HttpResult.resp ⟨200, Body.json
    [("errcode", JVal.jint 0), ("errmsg", JVal.jstr "ok"), ("access_token", t)]⟩

/-- A bare success response `{errcode: 0, errmsg: "ok"}`. -/
def okResp : HttpResult :=
  HttpResult.resp ⟨200, Body.json [("errcode", JVal.jint 0), ("errmsg", JVal.jstr "ok")]⟩

/-- A business-error response `{errcode: n, errmsg: m}`. -/
def errResp (n : Int) (m : String) : HttpResult :=
  HttpResult.resp ⟨200, Body.json [("errcode", JVal.jint n), ("errmsg", JVal.jstr m)]⟩

/-- A successful upload-endpoint response carrying a `media_id`. -/
def uploadOkResp (m : JVal) : HttpResult :=
  HttpResult.resp ⟨200, Body.json
    [("errcode", JVal.jint 0), ("errmsg", JVal.jstr "ok"), ("media_id", m)]⟩

/-- A fresh client plus a world: clock `t0`, response script `resps`,
filesystem `fsys`, empty trace. -/
def initSt (corp app sec : String) (fsys : List (String × String)) (t0 : Int)
    (resps : List HttpResult) : St :=
  ⟨initClient corp app sec, ⟨t0, resps, fsys, []⟩⟩

/-- Move the clock of a state to `u` (time elapsing between operations). -/
def setNow (s : St) (u : Int) : St :=
  { s with world := { s.world with now := u } }

/-- Run `get_access_token` once at each clock value in `times`, in order,
collecting the results. -/
def runCallsAt (times : List Int) (s : St) : List (Except PyError JVal) × St :=
  match times with
  | [] => ([], s)
  | t :: ts =>
    let p := get_access_token (setNow s t)
    let q := runCallsAt ts p.2
    (p.1 :: q.1, q.2)

/-- The error the `try` block of `_fetch_access_token` raises for a given
scripted result, if any: a transport error, or whatever
`_handle_api_response` raises. -/
def fetchStepError : HttpResult → Option PyError
  | HttpResult.netErr m => some (PyError.connectionError m)
  | HttpResult.resp r =>
    match handle_api_response r with
    | Except.error e => some e
    | Except.ok _ => none

/-- Modelled from the spec: the source class `WechatEnterprise` defines no
`invalidate` method; the spec requires an operation that forces the next
credential request to perform a fresh fetch even when the cached credential
has not expired.  Modelled here, per the spec's words, as discarding the
cached credential and its expiry instant. -/
def invalidate (s : St) : St :=
  { s with client := { s.client with access_token := none, token_expires_at := none } }

/-- The upload request `upload_file` issues: a POST to the upload endpoint
with the media type in the query and the file as multipart payload. -/
def uploadRequest (tok : JVal) (ftype fname content : String) : Request :=
  Request.post UPLOAD_URL [("access_token", tok), ("type", JVal.jstr ftype)] none
    (some ⟨"file", fname, content, "application/octet-stream"⟩)

/-- The send request `_send` issues for a media message (`image`, `file`,
`voice`, `video`): the message body carries the media id under the
message-type key. -/
def mediaSendRequest (tok : JVal) (app : String) (users : List String)
    (msg_type : String) (m : JVal) : Request :=
  Request.post SEND_URL [("access_token", tok)]
    (some [("touser", JVal.jstr (String.intercalate "|" users)),
           ("msgtype", JVal.jstr msg_type),
           ("agentid", JVal.jstr app),
           ("safe", JVal.jint 0),
           ("enable_id_trans", JVal.jint 1),
           ("enable_duplicate_check", JVal.jint 0),
           ("duplicate_check_interval", JVal.jint 1800),
           (msg_type, JVal.jobj [("media_id", m)])]) none

end WE


namespace WE

/-! ## Basic lemmas about the token cache -/

/-- Evaluating `setNow` on a literal state. -/
theorem setNow_eval (c : Client) (now u : Int) (resps : List HttpResult)
    (fsys : List (String × String)) (tr : List Request) :
    setNow ⟨c, ⟨now, resps, fsys, tr⟩⟩ u = ⟨c, ⟨u, resps, fsys, tr⟩⟩ := rfl

/-- `List.getLastD` steps over a cons cell. -/
theorem getLastD_cons_eq {α : Type} (a d : α) (as : List α) :
    (a :: as).getLastD d = as.getLastD a := by
  cases as <;> simp [List.getLastD]

/-- A truthy cached token with an unexpired recorded instant is returned
as-is: no state change, no request. -/
theorem get_access_token_cached (corp app sec : String) (tok : JVal) (e now : Int)
    (resps : List HttpResult) (fsys : List (String × String)) (tr : List Request)
    (h3 : tok.truthy = true) (h4 : now < e) :
    get_access_token ⟨⟨corp, app, sec, some tok, some e⟩, ⟨now, resps, fsys, tr⟩⟩ =
      (Except.ok tok, ⟨⟨corp, app, sec, some tok, some e⟩, ⟨now, resps, fsys, tr⟩⟩) := by
  simp [get_access_token, h3, h4]

/-- Once the recorded expiry instant is reached, `get_access_token` defers to
`_fetch_access_token`. -/
theorem get_access_token_stale (corp app sec : String) (tok : JVal) (e now : Int)
    (resps : List HttpResult) (fsys : List (String × String)) (tr : List Request)
    (h4 : ¬ (now < e)) :
    get_access_token ⟨⟨corp, app, sec, some tok, some e⟩, ⟨now, resps, fsys, tr⟩⟩ =
      fetch_access_token ⟨⟨corp, app, sec, some tok, some e⟩, ⟨now, resps, fsys, tr⟩⟩ := by
  simp [get_access_token, h4]

/-- Evaluation of a successful fetch: one token request is issued, one
response consumed, and the cache is overwritten with the new token and the
instant `now + (expires_in - 60)`. -/
theorem fetch_access_token_ok (c : Client) (now : Int) (t : JVal) (n : Int)
    (rest : List HttpResult) (fsys : List (String × String)) (tr : List Request) :
    fetch_access_token ⟨c, ⟨now, tokenResp t n :: rest, fsys, tr⟩⟩ =
      (Except.ok t,
       ⟨{ c with access_token := some t, token_expires_at := some (now + (n - 60)) },
        ⟨now, rest, fsys, tr ++ [tokenRequest c.corpid c.corpsecret]⟩⟩) := rfl

/-- Repeated `get_access_token` calls against a valid cache neither change
the state (beyond the clock) nor issue requests, and all return the cached
token. -/
theorem runCallsAt_cached (ts : List Int) (corp app sec : String) (tok : JVal) (e : Int)
    (now : Int) (resps : List HttpResult) (fsys : List (String × String)) (tr : List Request)
    (h3 : tok.truthy = true) (hts : ∀ x ∈ ts, x < e) :
    runCallsAt ts ⟨⟨corp, app, sec, some tok, some e⟩, ⟨now, resps, fsys, tr⟩⟩ =
      (List.replicate ts.length (Except.ok tok),
       ⟨⟨corp, app, sec, some tok, some e⟩, ⟨ts.getLastD now, resps, fsys, tr⟩⟩) := by
  induction ts generalizing now with
  | nil => rfl
  | cons a as ih =>
    have ha : a < e := hts a (List.mem_cons_self a as)
    have hcall := get_access_token_cached corp app sec tok e a resps fsys tr h3 ha
    have hrest := ih a (fun x hx => hts x (List.mem_cons_of_mem a hx))
    simp only [runCallsAt, setNow_eval, hcall, hrest]
    rw [getLastD_cons_eq]
    simp [List.replicate_succ]

end WE

namespace WE

/-- Claim C1: starting from a fresh client, a sequence of `get_access_token`
calls whose clock values all stay before the cached expiry-minus-buffer
instant `t0 + (expires_in - 60)` performs exactly one token fetch and every
call returns the fetched token; a later call at a clock value at or past that
instant performs exactly one further fetch and returns the newly fetched
token. -/
theorem claim1_token_cache_single_fetch (corp app sec : String)
    (fsys : List (String × String)) (t t2 : JVal) (n n2 : Int)
    (t0 u : Int) (ts : List Int)
    (htr : t.truthy = true)
    (hts : ∀ x ∈ ts, x < t0 + (n - 60))
    (hu : ¬ (u < t0 + (n - 60))) :
    (runCallsAt (t0 :: ts) (initSt corp app sec fsys t0 [tokenResp t n, tokenResp t2 n2])).1
        = List.replicate (ts.length + 1) (Except.ok t)
    ∧ fetchCount (runCallsAt (t0 :: ts)
        (initSt corp app sec fsys t0 [tokenResp t n, tokenResp t2 n2])).2.world.trace = 1
    ∧ (get_access_token (setNow (runCallsAt (t0 :: ts)
        (initSt corp app sec fsys t0 [tokenResp t n, tokenResp t2 n2])).2 u)).1
        = Except.ok t2
    ∧ fetchCount (get_access_token (setNow (runCallsAt (t0 :: ts)
        (initSt corp app sec fsys t0 [tokenResp t n, tokenResp t2 n2])).2 u)).2.world.trace = 2 := by
  have hfirst : get_access_token
      (setNow (initSt corp app sec fsys t0 [tokenResp t n, tokenResp t2 n2]) t0)
      = (Except.ok t,
         ⟨⟨corp, app, sec, some t, some (t0 + (n - 60))⟩,
          ⟨t0, [tokenResp t2 n2], fsys, [tokenRequest corp sec]⟩⟩) := rfl
  have hrest := runCallsAt_cached ts corp app sec t (t0 + (n - 60)) t0
    [tokenResp t2 n2] fsys [tokenRequest corp sec] htr hts
  have hrun : runCallsAt (t0 :: ts) (initSt corp app sec fsys t0 [tokenResp t n, tokenResp t2 n2])
      = (Except.ok t :: List.replicate ts.length (Except.ok t),
         ⟨⟨corp, app, sec, some t, some (t0 + (n - 60))⟩,
          ⟨ts.getLastD t0, [tokenResp t2 n2], fsys, [tokenRequest corp sec]⟩⟩) := by
    simp only [runCallsAt, hfirst, hrest]
  have hstale := get_access_token_stale corp app sec t (t0 + (n - 60)) u
    [tokenResp t2 n2] fsys [tokenRequest corp sec] hu
  have hfetch2 := fetch_access_token_ok
    ⟨corp, app, sec, some t, some (t0 + (n - 60))⟩ u t2 n2 [] fsys [tokenRequest corp sec]
  refine ⟨?_, ?_, ?_, ?_⟩
  · rw [hrun]
    simp [List.replicate_succ]
  · rw [hrun]
    rfl
  · rw [hrun, setNow_eval, hstale, hfetch2]
  · rw [hrun, setNow_eval, hstale, hfetch2]
    rfl

/-- Witness for C1 at a concrete run: fresh client, three calls at clocks
0, 10, 100 (all before 0 + 7200 - 60 = 7140), then one call at clock 7140. -/
theorem claim1_token_cache_single_fetch_witness :
    (runCallsAt [0, 10, 100] (initSt "c" "a" "s" [] 0
        [tokenResp (JVal.jstr "TOKEN1") 7200, tokenResp (JVal.jstr "TOKEN2") 7200])).1
        = List.replicate 3 (Except.ok (JVal.jstr "TOKEN1"))
    ∧ fetchCount (runCallsAt [0, 10, 100] (initSt "c" "a" "s" [] 0
        [tokenResp (JVal.jstr "TOKEN1") 7200, tokenResp (JVal.jstr "TOKEN2") 7200])).2.world.trace = 1
    ∧ (get_access_token (setNow (runCallsAt [0, 10, 100] (initSt "c" "a" "s" [] 0
        [tokenResp (JVal.jstr "TOKEN1") 7200, tokenResp (JVal.jstr "TOKEN2") 7200])).2 7140)).1
        = Except.ok (JVal.jstr "TOKEN2")
    ∧ fetchCount (get_access_token (setNow (runCallsAt [0, 10, 100] (initSt "c" "a" "s" [] 0
        [tokenResp (JVal.jstr "TOKEN1") 7200, tokenResp (JVal.jstr "TOKEN2") 7200])).2 7140)).2.world.trace = 2 :=
  claim1_token_cache_single_fetch "c" "a" "s" [] (JVal.jstr "TOKEN1") (JVal.jstr "TOKEN2")
    7200 7200 0 7140 [10, 100] rfl (by decide) (by decide)

end WE

namespace WE

/-- Claim C2: when the token fetch fails — transport error, HTTP error,
non-JSON body, or non-zero business `errcode` (all the cases
`fetchStepError` covers) — the call raises `WechatEnterpriseError` (errcode
-1, the authentication-failure wrap), exactly one request was issued and one
scripted response consumed (no retry), and the cached token and expiry
instant are exactly as before. -/
theorem claim2_fetch_failure_fatal (corp app sec : String) (atok : Option JVal)
    (texp : Option Int) (now : Int) (hr : HttpResult) (rest : List HttpResult)
    (fsys : List (String × String)) (tr : List Request) (e : PyError)
    (hfail : fetchStepError hr = some e) :
    fetch_access_token ⟨⟨corp, app, sec, atok, texp⟩, ⟨now, hr :: rest, fsys, tr⟩⟩ =
      (Except.error (PyError.wechat
          (JVal.jstr ("获取 token 失败，请确保 corpid 和 corpsecret 正确: " ++ PyError.str e))
          (JVal.jint (-1))),
       ⟨⟨corp, app, sec, atok, texp⟩, ⟨now, rest, fsys, tr ++ [tokenRequest corp sec]⟩⟩) := by
  cases hr with
  | netErr m =>
    simp only [fetchStepError, Option.some.injEq] at hfail
    subst hfail
    rfl
  | resp r =>
    simp only [fetchStepError] at hfail
    cases h : handle_api_response r with
    | error e2 =>
      rw [h] at hfail
      simp only [Option.some.injEq] at hfail
      subst hfail
      simp [fetch_access_token, sessionReq, h, tokenRequest]
    | ok js =>
      rw [h] at hfail
      simp at hfail

/-- Witness for C2: a business-error token response (`errcode` 40013) fails
the call with the wrapped authentication error and leaves the empty cache
untouched. -/
theorem claim2_fetch_failure_fatal_witness :
    fetch_access_token ⟨⟨"c", "a", "s", none, none⟩,
        ⟨0, [errResp 40013 "invalid corpid"], [], []⟩⟩ =
      (Except.error (PyError.wechat
          (JVal.jstr ("获取 token 失败，请确保 corpid 和 corpsecret 正确: [Errcode: 40013] invalid corpid"))
          (JVal.jint (-1))),
       ⟨⟨"c", "a", "s", none, none⟩, ⟨0, [], [], [tokenRequest "c" "s"]⟩⟩) :=
  claim2_fetch_failure_fatal "c" "a" "s" none none 0 (errResp 40013 "invalid corpid") [] [] []
    (PyError.wechat (JVal.jstr "invalid corpid") (JVal.jint 40013)) rfl

end WE

namespace WE

/-- With a valid cached token, `send_text` issues exactly one request: a POST
of the message body to the send endpoint, whose `touser` field is the
recipients joined with `"|"` — whatever the remote then answers. -/
theorem send_text_trace (corp app sec : String) (tok : JVal) (e now : Int)
    (resps : List HttpResult) (fsys : List (String × String)) (tr : List Request)
    (content : String) (users : List String)
    (htok : tok.truthy = true) (hlt : now < e) :
    (send_text ⟨⟨corp, app, sec, some tok, some e⟩, ⟨now, resps, fsys, tr⟩⟩
        content users).2.world.trace
      = tr ++ [Request.post SEND_URL [("access_token", tok)]
          (some [("touser", JVal.jstr (String.intercalate "|" users)),
                 ("msgtype", JVal.jstr "text"),
                 ("agentid", JVal.jstr app),
                 ("safe", JVal.jint 0),
                 ("enable_id_trans", JVal.jint 1),
                 ("enable_duplicate_check", JVal.jint 0),
                 ("duplicate_check_interval", JVal.jint 1800),
                 ("text", JVal.jobj [("content", JVal.jstr content)])]) none] := by
  have hget := get_access_token_cached corp app sec tok e now resps fsys tr htok hlt
  cases resps with
  | nil => simp [send_text, send, api_post, hget, sessionReq]
  | cons hr rest => cases hr <;> simp [send_text, send, api_post, hget, sessionReq]

end WE

namespace WE

/-- Claim C3 counterexample: `send_text("hello", [])` on a fresh client with
a stubbed remote does NOT fail with a local validation error before any
network request — it fetches a token, issues the send request (two requests
total) and returns the stubbed success. -/
theorem claim3_empty_recipients_counterexample :
    (send_text (initSt "c" "a" "s" [] 0 [tokenResp (JVal.jstr "T") 7200, okResp])
        "hello" []).1
      = Except.ok [("errcode", JVal.jint 0), ("errmsg", JVal.jstr "ok")]
    ∧ (send_text (initSt "c" "a" "s" [] 0 [tokenResp (JVal.jstr "T") 7200, okResp])
        "hello" []).2.world.trace.length = 2 :=
  ⟨rfl, rfl⟩

/-- Claim C3 (amended): a send with zero recipients is not validated locally;
the send request is issued with the `touser` field equal to the empty
string. -/
theorem claim3_empty_recipients_sends_request (corp app sec : String) (tok : JVal)
    (e now : Int) (resps : List HttpResult) (fsys : List (String × String))
    (tr : List Request) (content : String)
    (htok : tok.truthy = true) (hlt : now < e) :
    (send_text ⟨⟨corp, app, sec, some tok, some e⟩, ⟨now, resps, fsys, tr⟩⟩
        content []).2.world.trace
      = tr ++ [Request.post SEND_URL [("access_token", tok)]
          (some [("touser", JVal.jstr ""),
                 ("msgtype", JVal.jstr "text"),
                 ("agentid", JVal.jstr app),
                 ("safe", JVal.jint 0),
                 ("enable_id_trans", JVal.jint 1),
                 ("enable_duplicate_check", JVal.jint 0),
                 ("duplicate_check_interval", JVal.jint 1800),
                 ("text", JVal.jobj [("content", JVal.jstr content)])]) none] :=
  send_text_trace corp app sec tok e now resps fsys tr content [] htok hlt

/-- Witness for the amended C3 at a concrete state. -/
theorem claim3_empty_recipients_sends_request_witness :
    (send_text ⟨⟨"c", "a", "s", some (JVal.jstr "T"), some 100⟩, ⟨0, [okResp], [], []⟩⟩
        "hello" []).2.world.trace
      = [Request.post SEND_URL [("access_token", JVal.jstr "T")]
          (some [("touser", JVal.jstr ""),
                 ("msgtype", JVal.jstr "text"),
                 ("agentid", JVal.jstr "a"),
                 ("safe", JVal.jint 0),
                 ("enable_id_trans", JVal.jint 1),
                 ("enable_duplicate_check", JVal.jint 0),
                 ("duplicate_check_interval", JVal.jint 1800),
                 ("text", JVal.jobj [("content", JVal.jstr "hello")])]) none] :=
  claim3_empty_recipients_sends_request "c" "a" "s" (JVal.jstr "T") 100 0 [okResp] [] []
    "hello" rfl (by decide)

/-- Claim C4: for a non-empty recipient list, the wire-level `touser` field of
the issued send request is exactly the recipients joined with `"|"` in the
given order. -/
theorem claim4_touser_join (corp app sec : String) (tok : JVal)
    (e now : Int) (resps : List HttpResult) (fsys : List (String × String))
    (tr : List Request) (content : String) (users : List String)
    (hne : users ≠ [])
    (htok : tok.truthy = true) (hlt : now < e) :
    (send_text ⟨⟨corp, app, sec, some tok, some e⟩, ⟨now, resps, fsys, tr⟩⟩
        content users).2.world.trace
      = tr ++ [Request.post SEND_URL [("access_token", tok)]
          (some [("touser", JVal.jstr (String.intercalate "|" users)),
                 ("msgtype", JVal.jstr "text"),
                 ("agentid", JVal.jstr app),
                 ("safe", JVal.jint 0),
                 ("enable_id_trans", JVal.jint 1),
                 ("enable_duplicate_check", JVal.jint 0),
                 ("duplicate_check_interval", JVal.jint 1800),
                 ("text", JVal.jobj [("content", JVal.jstr content)])]) none] :=
  send_text_trace corp app sec tok e now resps fsys tr content users htok hlt

/-- Witness for C4: recipients `["alice", "bob"]` are encoded on the wire as
`"alice|bob"`. -/
theorem claim4_touser_join_witness :
    ["alice", "bob"] ≠ ([] : List String)
    ∧ (send_text ⟨⟨"c", "a", "s", some (JVal.jstr "T"), some 100⟩, ⟨0, [okResp], [], []⟩⟩
        "hello" ["alice", "bob"]).2.world.trace
      = [Request.post SEND_URL [("access_token", JVal.jstr "T")]
          (some [("touser", JVal.jstr "alice|bob"),
                 ("msgtype", JVal.jstr "text"),
                 ("agentid", JVal.jstr "a"),
                 ("safe", JVal.jint 0),
                 ("enable_id_trans", JVal.jint 1),
                 ("enable_duplicate_check", JVal.jint 0),
                 ("duplicate_check_interval", JVal.jint 1800),
                 ("text", JVal.jobj [("content", JVal.jstr "hello")])]) none] :=
  ⟨by decide,
   claim4_touser_join "c" "a" "s" (JVal.jstr "T") 100 0 [okResp] [] []
     "hello" ["alice", "bob"] (by decide) rfl (by decide)⟩

end WE

namespace WE

/-- `_handle_api_response` never raises `FileNotFoundError`. -/
theorem handle_api_response_no_fnf (r : HttpResponse) (p : String) :
    handle_api_response r ≠ Except.error (PyError.fileNotFound p) := by
  unfold handle_api_response
  split
  · simp
  · split
    · simp
    · dsimp only
      split <;> simp

/-- With a valid cached token and a readable file, an upload whose scripted
response is a success carrying `media_id` returns that id and issues exactly
the upload request. -/
theorem upload_file_ok (corp app sec : String) (tok m : JVal) (e now : Int)
    (rest : List HttpResult) (fsys : List (String × String)) (tr : List Request)
    (path fname ftype content : String)
    (hfs : fsRead fsys path = some content)
    (htok : tok.truthy = true) (hlt : now < e) :
    upload_file ⟨⟨corp, app, sec, some tok, some e⟩, ⟨now, uploadOkResp m :: rest, fsys, tr⟩⟩
        path fname ftype =
      (Except.ok m,
       ⟨⟨corp, app, sec, some tok, some e⟩,
        ⟨now, rest, fsys, tr ++ [uploadRequest tok ftype fname content]⟩⟩) := by
  have hget := get_access_token_cached corp app sec tok e now (uploadOkResp m :: rest) fsys tr htok hlt
  simp only [upload_file, hfs, api_post, hget]
  simp [sessionReq, uploadOkResp, handle_api_response, jgetOpt, jget, pyNeZero, uploadRequest]

/-- With a valid cached token and a readable file, an upload whose scripted
response makes `_handle_api_response` raise fails with the wrapping
`WechatEnterpriseError("文件上传失败: {e}", -1)`, after issuing exactly the
upload request. -/
theorem upload_file_err (corp app sec : String) (tok : JVal) (e now : Int)
    (bad : HttpResponse) (rest : List HttpResult) (fsys : List (String × String))
    (tr : List Request) (path fname ftype content : String) (ebad : PyError)
    (hfs : fsRead fsys path = some content)
    (htok : tok.truthy = true) (hlt : now < e)
    (hbad : handle_api_response bad = Except.error ebad) :
    upload_file ⟨⟨corp, app, sec, some tok, some e⟩, ⟨now, HttpResult.resp bad :: rest, fsys, tr⟩⟩
        path fname ftype =
      (Except.error (PyError.wechat
          (JVal.jstr ("文件上传失败: " ++ PyError.str ebad)) (JVal.jint (-1))),
       ⟨⟨corp, app, sec, some tok, some e⟩,
        ⟨now, rest, fsys, tr ++ [uploadRequest tok ftype fname content]⟩⟩) := by
  have hget := get_access_token_cached corp app sec tok e now (HttpResult.resp bad :: rest) fsys tr htok hlt
  cases ebad with
  | fileNotFound p => exact absurd hbad (handle_api_response_no_fnf bad p)
  | wechat a b => simp [upload_file, hfs, api_post, hget, sessionReq, hbad, uploadRequest]
  | httpStatus n => simp [upload_file, hfs, api_post, hget, sessionReq, hbad, uploadRequest]
  | connectionError msg => simp [upload_file, hfs, api_post, hget, sessionReq, hbad, uploadRequest]
  | keyError k => simp [upload_file, hfs, api_post, hget, sessionReq, hbad, uploadRequest]
  | valueError msg => simp [upload_file, hfs, api_post, hget, sessionReq, hbad, uploadRequest]
  | typeError msg => simp [upload_file, hfs, api_post, hget, sessionReq, hbad, uploadRequest]

/-- With a valid cached token, `_send` for a media message issues exactly the
send request carrying the media id under the message-type key. -/
theorem send_media_trace (corp app sec : String) (tok m : JVal) (e now : Int)
    (resps : List HttpResult) (fsys : List (String × String)) (tr : List Request)
    (users : List String) (msg_type : String)
    (hmt : msg_type = "image" ∨ msg_type = "file")
    (htok : tok.truthy = true) (hlt : now < e) :
    (send ⟨⟨corp, app, sec, some tok, some e⟩, ⟨now, resps, fsys, tr⟩⟩
        msg_type users none (some m)).2.world.trace
      = tr ++ [mediaSendRequest tok app users msg_type m] := by
  have hget := get_access_token_cached corp app sec tok e now resps fsys tr htok hlt
  rcases hmt with h | h <;> subst h <;>
    (cases resps with
     | nil => simp [send, api_post, hget, sessionReq, mediaSendRequest]
     | cons hr rest => cases hr <;> simp [send, api_post, hget, sessionReq, mediaSendRequest])

end WE

namespace WE

/-- Claim C5 (amended): with a valid cached token, `send_image` issues exactly
two requests in order — the upload, then the send carrying exactly the
`media_id` the upload returned; when the upload response is an error, the
send request is never issued and the operation fails with
`WechatEnterpriseError("文件上传失败: {e}", -1)` wrapping the upload error
(not with the upload error itself). -/
theorem claim5_upload_then_send (corp app sec : String) (tok m : JVal) (e now : Int)
    (r2 : HttpResult) (bad : HttpResponse) (ebad : PyError)
    (fsys : List (String × String)) (tr : List Request)
    (path content : String) (users : List String)
    (hfs : fsRead fsys path = some content)
    (htok : tok.truthy = true) (hlt : now < e)
    (hbad : handle_api_response bad = Except.error ebad) :
    ((send_image ⟨⟨corp, app, sec, some tok, some e⟩, ⟨now, [uploadOkResp m, r2], fsys, tr⟩⟩
        path users).2.world.trace
      = tr ++ [uploadRequest tok "image" (pathName path) content,
               mediaSendRequest tok app users "image" m])
    ∧ ((send_image ⟨⟨corp, app, sec, some tok, some e⟩, ⟨now, [HttpResult.resp bad], fsys, tr⟩⟩
        path users).2.world.trace
      = tr ++ [uploadRequest tok "image" (pathName path) content])
    ∧ ((send_image ⟨⟨corp, app, sec, some tok, some e⟩, ⟨now, [HttpResult.resp bad], fsys, tr⟩⟩
        path users).1
      = Except.error (PyError.wechat
          (JVal.jstr ("文件上传失败: " ++ PyError.str ebad)) (JVal.jint (-1)))) := by
  have hup := upload_file_ok corp app sec tok m e now [r2] fsys tr
    path (pathName path) "image" content hfs htok hlt
  have hup2 := upload_file_err corp app sec tok e now bad [] fsys tr
    path (pathName path) "image" content ebad hfs htok hlt hbad
  have hsend := send_media_trace corp app sec tok m e now [r2] fsys
    (tr ++ [uploadRequest tok "image" (pathName path) content]) users "image"
    (Or.inl rfl) htok hlt
  refine ⟨?_, ?_, ?_⟩
  · simp only [send_image, hup]
    rw [hsend]
    simp
  · simp only [send_image, hup2]
  · simp only [send_image, hup2]

/-- Witness for the amended C5 at a concrete run: upload answers media id
`MEDIA1`, and in the failure scenario the stub answers `errcode` 40001. -/
theorem claim5_upload_then_send_witness :
    ((send_image ⟨⟨"c", "a", "s", some (JVal.jstr "T"), some 100⟩,
        ⟨0, [uploadOkResp (JVal.jstr "MEDIA1"), okResp], [("/tmp/pic.png", "IMG")], []⟩⟩
        "/tmp/pic.png" ["alice"]).2.world.trace
      = [uploadRequest (JVal.jstr "T") "image" "pic.png" "IMG",
         mediaSendRequest (JVal.jstr "T") "a" ["alice"] "image" (JVal.jstr "MEDIA1")])
    ∧ ((send_image ⟨⟨"c", "a", "s", some (JVal.jstr "T"), some 100⟩,
        ⟨0, [HttpResult.resp ⟨200, Body.json
              [("errcode", JVal.jint 40001), ("errmsg", JVal.jstr "invalid credential")]⟩],
         [("/tmp/pic.png", "IMG")], []⟩⟩
        "/tmp/pic.png" ["alice"]).2.world.trace
      = [uploadRequest (JVal.jstr "T") "image" "pic.png" "IMG"])
    ∧ ((send_image ⟨⟨"c", "a", "s", some (JVal.jstr "T"), some 100⟩,
        ⟨0, [HttpResult.resp ⟨200, Body.json
              [("errcode", JVal.jint 40001), ("errmsg", JVal.jstr "invalid credential")]⟩],
         [("/tmp/pic.png", "IMG")], []⟩⟩
        "/tmp/pic.png" ["alice"]).1
      = Except.error (PyError.wechat
          (JVal.jstr "文件上传失败: [Errcode: 40001] invalid credential") (JVal.jint (-1)))) :=
  claim5_upload_then_send "c" "a" "s" (JVal.jstr "T") (JVal.jstr "MEDIA1") 100 0
    okResp ⟨200, Body.json [("errcode", JVal.jint 40001), ("errmsg", JVal.jstr "invalid credential")]⟩
    (PyError.wechat (JVal.jstr "invalid credential") (JVal.jint 40001))
    [("/tmp/pic.png", "IMG")] [] "/tmp/pic.png" "IMG" ["alice"]
    rfl rfl (by decide) rfl

/-- Claim C5 counterexample: when the upload answers a business error
(`errcode` 40001, `errmsg` "invalid credential"), `send_image` does not fail
with that error — it fails with the wrapping error whose `errcode` is -1 and
whose message embeds the original only as formatted text. -/
theorem claim5_counterexample :
    ((send_image ⟨⟨"c", "a", "s", some (JVal.jstr "T"), some 100⟩,
        ⟨0, [errResp 40001 "invalid credential"], [("/tmp/pic.png", "IMG")], []⟩⟩
        "/tmp/pic.png" ["alice"]).1
      = Except.error (PyError.wechat
          (JVal.jstr "文件上传失败: [Errcode: 40001] invalid credential") (JVal.jint (-1))))
    ∧ ((send_image ⟨⟨"c", "a", "s", some (JVal.jstr "T"), some 100⟩,
        ⟨0, [errResp 40001 "invalid credential"], [("/tmp/pic.png", "IMG")], []⟩⟩
        "/tmp/pic.png" ["alice"]).1
      ≠ Except.error (PyError.wechat (JVal.jstr "invalid credential") (JVal.jint 40001))) := by
  refine ⟨rfl, ?_⟩
  have heq : (send_image ⟨⟨"c", "a", "s", some (JVal.jstr "T"), some 100⟩,
        ⟨0, [errResp 40001 "invalid credential"], [("/tmp/pic.png", "IMG")], []⟩⟩
        "/tmp/pic.png" ["alice"]).1
      = Except.error (PyError.wechat
          (JVal.jstr "文件上传失败: [Errcode: 40001] invalid credential") (JVal.jint (-1))) := rfl
  rw [heq]
  simp

end WE

namespace WE

/-- Claim C6 (amended): `_handle_api_response` raises
`WechatEnterpriseError(errmsg, errcode)` carrying the business code and the
message verbatim, and calls that propagate it unwrapped (here `send_text`)
fail with exactly that error; `upload_file` however re-wraps it as
`WechatEnterpriseError("文件上传失败: {e}", -1)`, so the upload error does not
carry the numeric code (its errcode is -1) and embeds the message only inside
formatted text. -/
theorem claim6_error_code_and_message (st : Nat) (js : JObj) (n : Int) (msg : String)
    (corp app sec : String) (tok : JVal) (e now : Int)
    (fsys : List (String × String)) (tr : List Request)
    (content path fname ftype fcontent : String) (users : List String)
    (hst : st < 400)
    (hcode : jget js "errcode" (JVal.jint 0) = JVal.jint n)
    (hne : n ≠ 0)
    (hfs : fsRead fsys path = some fcontent)
    (htok : tok.truthy = true) (hlt : now < e) :
    (handle_api_response ⟨st, Body.json js⟩
      = Except.error (PyError.wechat (jget js "errmsg" (JVal.jstr "ok")) (JVal.jint n)))
    ∧ ((send_text ⟨⟨corp, app, sec, some tok, some e⟩,
          ⟨now, [errResp n msg], fsys, tr⟩⟩ content users).1
      = Except.error (PyError.wechat (JVal.jstr msg) (JVal.jint n)))
    ∧ ((upload_file ⟨⟨corp, app, sec, some tok, some e⟩,
          ⟨now, [errResp n msg], fsys, tr⟩⟩ path fname ftype).1
      = Except.error (PyError.wechat
          (JVal.jstr ("文件上传失败: " ++
            PyError.str (PyError.wechat (JVal.jstr msg) (JVal.jint n))))
          (JVal.jint (-1)))) := by
  have hno : ¬ (400 ≤ st ∧ st < 600) := by omega
  have hbad : handle_api_response
      ⟨200, Body.json [("errcode", JVal.jint n), ("errmsg", JVal.jstr msg)]⟩
      = Except.error (PyError.wechat (JVal.jstr msg) (JVal.jint n)) := by
    simp [handle_api_response, jget, jgetOpt, pyNeZero, hne]
  refine ⟨?_, ?_, ?_⟩
  · simp [handle_api_response, hno, hcode, pyNeZero, hne]
  · have hget := get_access_token_cached corp app sec tok e now [errResp n msg] fsys tr htok hlt
    simp only [send_text, send, api_post, hget]
    simp [sessionReq, errResp, hbad]
  · have h3 := upload_file_err corp app sec tok e now
      ⟨200, Body.json [("errcode", JVal.jint n), ("errmsg", JVal.jstr msg)]⟩ [] fsys tr
      path fname ftype fcontent (PyError.wechat (JVal.jstr msg) (JVal.jint n))
      hfs htok hlt hbad
    simp only [errResp]
    rw [h3]

/-- Witness for the amended C6 at a concrete business error (`errcode` 40013,
`errmsg` "invalid secret"). -/
theorem claim6_error_code_and_message_witness :
    (handle_api_response ⟨200, Body.json
        [("errcode", JVal.jint 40013), ("errmsg", JVal.jstr "invalid secret")]⟩
      = Except.error (PyError.wechat (JVal.jstr "invalid secret") (JVal.jint 40013)))
    ∧ ((send_text ⟨⟨"c", "a", "s", some (JVal.jstr "T"), some 100⟩,
          ⟨0, [errResp 40013 "invalid secret"], [("/tmp/f.bin", "DATA")], []⟩⟩
          "hello" ["alice"]).1
      = Except.error (PyError.wechat (JVal.jstr "invalid secret") (JVal.jint 40013)))
    ∧ ((upload_file ⟨⟨"c", "a", "s", some (JVal.jstr "T"), some 100⟩,
          ⟨0, [errResp 40013 "invalid secret"], [("/tmp/f.bin", "DATA")], []⟩⟩
          "/tmp/f.bin" "f.bin" "file").1
      = Except.error (PyError.wechat
          (JVal.jstr "文件上传失败: [Errcode: 40013] invalid secret")
          (JVal.jint (-1)))) :=
  claim6_error_code_and_message 200
    [("errcode", JVal.jint 40013), ("errmsg", JVal.jstr "invalid secret")]
    40013 "invalid secret" "c" "a" "s" (JVal.jstr "T") 100 0
    [("/tmp/f.bin", "DATA")] [] "hello" "/tmp/f.bin" "f.bin" "file" "DATA" ["alice"]
    (by decide) rfl (by decide) rfl rfl (by decide)

/-- Claim C6 counterexample: for an upload whose response carries business
error 40013 with message "invalid secret", the resulting error's code is -1,
not 40013, and its message is not the verbatim remote message — the claim's
"including upload" part fails on the code. -/
theorem claim6_counterexample :
    ((upload_file ⟨⟨"c", "a", "s", some (JVal.jstr "T"), some 100⟩,
        ⟨0, [errResp 40013 "invalid secret"], [("/tmp/f.bin", "DATA")], []⟩⟩
        "/tmp/f.bin" "f.bin" "file").1
      = Except.error (PyError.wechat
          (JVal.jstr "文件上传失败: [Errcode: 40013] invalid secret") (JVal.jint (-1))))
    ∧ ((upload_file ⟨⟨"c", "a", "s", some (JVal.jstr "T"), some 100⟩,
        ⟨0, [errResp 40013 "invalid secret"], [("/tmp/f.bin", "DATA")], []⟩⟩
        "/tmp/f.bin" "f.bin" "file").1
      ≠ Except.error (PyError.wechat (JVal.jstr "invalid secret") (JVal.jint 40013))) := by
  refine ⟨rfl, ?_⟩
  have heq : (upload_file ⟨⟨"c", "a", "s", some (JVal.jstr "T"), some 100⟩,
        ⟨0, [errResp 40013 "invalid secret"], [("/tmp/f.bin", "DATA")], []⟩⟩
        "/tmp/f.bin" "f.bin" "file").1
      = Except.error (PyError.wechat
          (JVal.jstr "文件上传失败: [Errcode: 40013] invalid secret") (JVal.jint (-1))) := rfl
  rw [heq]
  simp

end WE

namespace WE

/-- Claim C7: uploading a path that is not a readable local file fails with
`WechatEnterpriseError("文件未找到: …", -1)` (the wrap of
`FileNotFoundError`) and the state — in particular the request trace and the
response script — is completely unchanged: zero network requests. -/
theorem claim7_upload_missing_file (c : Client) (w : World) (path fname ftype : String)
    (hmiss : fsRead w.fs path = none) :
    upload_file ⟨c, w⟩ path fname ftype =
      (Except.error (PyError.wechat (JVal.jstr ("文件未找到: " ++ path)) (JVal.jint (-1))),
       ⟨c, w⟩) := by
  simp [upload_file, hmiss]

/-- Witness for C7: `upload_file("/nonexistent/path", …)` on an empty
filesystem fails locally with no network request. -/
theorem claim7_upload_missing_file_witness :
    upload_file ⟨⟨"c", "a", "s", none, none⟩, ⟨0, [], [], []⟩⟩
        "/nonexistent/path" "path" "file" =
      (Except.error (PyError.wechat
          (JVal.jstr "文件未找到: /nonexistent/path") (JVal.jint (-1))),
       ⟨⟨"c", "a", "s", none, none⟩, ⟨0, [], [], []⟩⟩) :=
  claim7_upload_missing_file ⟨"c", "a", "s", none, none⟩ ⟨0, [], [], []⟩
    "/nonexistent/path" "path" "file" rfl

/-- `_fetch_access_token` always issues exactly one token request, whatever
the outcome. -/
theorem fetch_access_token_trace (s : St) :
    (fetch_access_token s).2.world.trace
      = s.world.trace ++ [tokenRequest s.client.corpid s.client.corpsecret] := by
  obtain ⟨⟨corp, app, sec, atok, texp⟩, ⟨now, resps, fsys, tr⟩⟩ := s
  cases resps with
  | nil => rfl
  | cons hr rest =>
    cases hr with
    | netErr m => rfl
    | resp r =>
      cases h : handle_api_response r with
      | error e2 => simp [fetch_access_token, sessionReq, h, tokenRequest]
      | ok js =>
        cases h2 : jgetOpt js "access_token" with
        | none => simp [fetch_access_token, sessionReq, h, h2, tokenRequest]
        | some tok =>
          cases h3 : jget js "expires_in" (JVal.jint 7200) with
          | jint n => simp [fetch_access_token, sessionReq, h, h2, h3, tokenRequest]
          | jstr s2 => simp [fetch_access_token, sessionReq, h, h2, h3, tokenRequest]
          | jobj l => simp [fetch_access_token, sessionReq, h, h2, h3, tokenRequest]

/-- Claim C8 (the behaviour the spec's `invalidate` must have, modelled from
the spec because the source class defines no such method): after discarding
the cached credential, the next `get_access_token` call always defers to
`_fetch_access_token` and issues a fresh token request — regardless of the
previous cache state, in particular even when the cached credential had not
expired. -/
theorem claim8_invalidate_forces_fetch (s : St) :
    get_access_token (invalidate s) = fetch_access_token (invalidate s)
    ∧ (get_access_token (invalidate s)).2.world.trace
      = s.world.trace ++ [tokenRequest s.client.corpid s.client.corpsecret] := by
  refine ⟨rfl, ?_⟩
  show (fetch_access_token (invalidate s)).2.world.trace = _
  have h := fetch_access_token_trace (invalidate s)
  simpa [invalidate] using h

/-- Claim C10: when the token response omits `expires_in`, the client
defaults it to 7200 seconds, so the cached expiry instant becomes the fetch
time plus 7140 seconds (7200 minus the 60-second buffer). -/
theorem claim10_default_expires_in (c : Client) (now : Int) (t : JVal)
    (rest : List HttpResult) (fsys : List (String × String)) (tr : List Request) :
    fetch_access_token ⟨c, ⟨now, tokenRespNoExpire t :: rest, fsys, tr⟩⟩ =
      (Except.ok t,
       ⟨{ c with access_token := some t, token_expires_at := some (now + 7140) },
        ⟨now, rest, fsys, tr ++ [tokenRequest c.corpid c.corpsecret]⟩⟩) := rfl

end WE
